import Mathlib

/-!
Shallow embedding of the TwinCAT MCP adapter (`mcp-server/server.py`).

The adapter dispatches tool calls, builds argument vectors, locates an
external executable (`TcAutomation.exe`) on an ordered candidate path list,
runs it under a timeout, parses its stdout as JSON, and renders the
resulting envelope as display text.

Modelling choices:
- Python/JSON values are modelled by `JValue` (JSON numbers as `Int`;
  the claims under study involve no floats).
- The filesystem is a predicate `String → Bool` (path existence), and the
  subprocess outcome is an explicit `ProcOutcome` input.
- `json.loads` is external library code, modelled as a parameter
  `parse : String → Option JValue` (`none` = `JSONDecodeError`).
- A Python exception propagating out of a function is `Except.error msg`;
  a normal return of value `v` is `Except.ok v`.
- The rendering markers in the source file are mojibake byte sequences
  (double-encoded emoji); they are reproduced here codepoint for
  codepoint as the file stores them.
-/

namespace TwincatMCP

/-- JSON/Python value model. -/
inductive JValue where
  | null
  | bool (b : Bool)
  | num (n : Int)
  | str (s : String)
  | arr (elems : List JValue)
  | obj (fields : List (String × JValue))
deriving Repr

/-- Python truthiness of a JSON-decoded value. -/
def JValue.truthy : JValue → Bool
  | .null => false
  | .bool b => b
  | .num n => n != 0
  | .str s => s != ""
  | .arr xs => !xs.isEmpty
  | .obj fs => !fs.isEmpty

/-- Python type name, as used in exception messages. -/
def JValue.pyType : JValue → String
  | .null => "NoneType"
  | .bool _ => "bool"
  | .num _ => "int"
  | .str _ => "str"
  | .arr _ => "list"
  | .obj _ => "dict"

/-- First-match association lookup (Python dict keys are unique, so any
JSON-decoded object has at most one binding per key). -/
def lookupField (key : String) : List (String × JValue) → Option JValue
  | [] => none
  | (k, v) :: rest => if k == key then some v else lookupField key rest

mutual

/-- Python `repr` of a JSON-decoded value (string quoting simplified to
bare quotes; the adapter never feeds quote-bearing strings through it). -/
def pyRepr : JValue → String
  | .null => "None"
  | .bool true => "True"
  | .bool false => "False"
  | .num n => toString n
  | .str s => "\x27" ++ s ++ "\x27"
  | .arr xs => "[" ++ pyReprElems xs ++ "]"
  | .obj fs => "\x7b" ++ pyReprPairs fs ++ "\x7d"

/-- Comma-joined reprs of list elements. -/
def pyReprElems : List JValue → String
  | [] => ""
  | [v] => pyRepr v
  | v :: rest => pyRepr v ++ ", " ++ pyReprElems rest

/-- Comma-joined `key: value` reprs of object fields. -/
def pyReprPairs : List (String × JValue) → String
  | [] => ""
  | [(k, v)] => "\x27" ++ k ++ "\x27: " ++ pyRepr v
  | (k, v) :: rest => "\x27" ++ k ++ "\x27: " ++ pyRepr v ++ ", " ++ pyReprPairs rest

end

/-- Python `str()` of a JSON-decoded value, as interpolated by f-strings. -/
def JValue.pyStr : JValue → String
  | .str s => s
  | v => pyRepr v

/-- Python `str.strip()`: drop leading and trailing whitespace (kernel-
computable, unlike `String.trim`; the exact whitespace set is immaterial
here — only emptiness after stripping is ever tested). -/
def pyStrip (s : String) : String :=
  ⟨((s.data.dropWhile Char.isWhitespace).reverse.dropWhile Char.isWhitespace).reverse⟩

/-- Python `value.get(key, dflt)`: association lookup on a dict, an
`AttributeError` on any other value. -/
def dictGet (v : JValue) (key : String) (dflt : JValue) : Except String JValue :=
  match v with
  | .obj fields => .ok ((lookupField key fields).getD dflt)
  | _ => .error ("AttributeError: " ++ v.pyType ++ " object has no attribute get")

/-- Python iteration over a value: lists yield elements, strings yield
characters, dicts yield keys, anything else raises `TypeError`. -/
def iterElems : JValue → Except String (List JValue)
  | .arr xs => .ok xs
  | .str s => .ok (s.toList.map (fun c => JValue.str (String.singleton c)))
  | .obj fs => .ok (fs.map (fun kv => JValue.str kv.1))
  | v => .error ("TypeError: " ++ v.pyType ++ " object is not iterable")

/-- Python `str.join` element check: every element must be a `str`. -/
def asStrList : List JValue → Except String (List String)
  | [] => .ok []
  | JValue.str s :: rest => do
      let r ← asStrList rest
      .ok (s :: r)
  | v :: _ => .error ("TypeError: sequence item: expected str instance, " ++ v.pyType ++ " found")

/-- Python `sep.join` on a list of strings. -/
def pyJoinStrs (sep : String) : List String → String
  | [] => ""
  | [x] => x
  | x :: rest => x ++ sep ++ pyJoinStrs sep rest

/-- Python `sep.join(v)`. -/
def pyJoin (sep : String) (v : JValue) : Except String String := do
  let elems ← iterElems v
  let strs ← asStrList elems
  .ok (pyJoinStrs sep strs)

/-! Rendering markers exactly as stored in the source file (the file holds
mac-roman mojibake of the original emoji; reproduced codepoint for
codepoint). -/

/-- Marker the source renders before success messages. -/
def okMark : String := "‚úÖ"

/-- Marker the source renders before failure messages. -/
def failMark : String := "‚ùå"

/-- Marker the source renders before warning lists. -/
def warnMark : String := "‚ö†Ô∏è"

/-- Marker the source renders before error lists. -/
def redMark : String := "üî¥"

/-- Marker the source renders before the info header and the step list. -/
def clipMark : String := "üìã"

/-- Marker the source renders before the dry-run prefix. -/
def lensMark : String := "üîç"

/-! ## ExecutableLocator -/

/-- The four candidate locations for `TcAutomation.exe`, in declared
priority order, relative to the script's parent directory
(`TC_AUTOMATION_PATHS` in the source). -/
def TC_AUTOMATION_PATHS (scriptParent : String) : List String :=
  [scriptParent ++ "/TcAutomation/bin/Release/TcAutomation.exe",
   scriptParent ++ "/TcAutomation/bin/Debug/TcAutomation.exe",
   scriptParent ++ "/TcAutomation/bin/Release/net8.0-windows/TcAutomation.exe",
   scriptParent ++ "/TcAutomation/publish/TcAutomation.exe"]

/-- The `"\n".join(f"  - p")` listing of searched paths. -/
def searchedPathsListing (paths : List String) : String :=
  pyJoinStrs "\n" (paths.map (fun p => "  - " ++ p))

/-- The `FileNotFoundError` message raised when no candidate exists. -/
def notFoundMessage (paths : List String) : String :=
  "TcAutomation.exe not found. Searched paths:\n" ++ searchedPathsListing paths ++
  "\n\nPlease build the TcAutomation project first:\n" ++ "  .\\scripts\\build.ps1"

/-- The source's `for path in TC_AUTOMATION_PATHS: if path.exists(): return path`. -/
def findFirst (fs : String → Bool) : List String → Option String
  | [] => none
  | p :: rest => if fs p then some p else findFirst fs rest

/-- `find_tc_automation_exe`: return the first existing candidate path, or
raise `FileNotFoundError` listing every candidate. -/
def find_tc_automation_exe (fs : String → Bool) (paths : List String) : Except String String :=
  match findFirst fs paths with
  | some p => .ok p
  | none => .error (notFoundMessage paths)

/-! ## ProcessBridge -/

/-- Outcome of the `subprocess.run` call: normal completion with captured
output, `TimeoutExpired` (partial output captured but unused), or any
other exception raised while spawning/running. -/
inductive ProcOutcome where
  | completed (stdout stderr : String)
  | timedOut (stdout stderr : String)
  | spawnError (message : String)

/-- `run_tc_automation`: resolve the executable (a `FileNotFoundError`
from the locator is raised **outside** the `try` block, hence propagates),
then run the process and normalize its outcome into an envelope. -/
def run_tc_automation (parse : String → Option JValue) (fs : String → Bool)
    (paths : List String) (proc : ProcOutcome) : Except String JValue :=
  match find_tc_automation_exe fs paths with
  | .error e => .error e
  | .ok _exePath =>
    match proc with
    | .completed out err =>
        if pyStrip out != "" then
          match parse out with
          | some v => .ok v
          | none => .ok (.obj [("success", .bool false),
                               ("errorMessage", .str ("Invalid JSON output: " ++ out)),
                               ("stderr", .str err)])
        else
          .ok (.obj [("success", .bool false),
                     ("errorMessage", .str (if err != "" then err else "No output from TcAutomation.exe"))])
    | .timedOut _ _ =>
        .ok (.obj [("success", .bool false),
                   ("errorMessage", .str "Command timed out after 5 minutes")])
    | .spawnError msg =>
        .ok (.obj [("success", .bool false), ("errorMessage", .str msg)])

/-! ## Dispatcher: argument building (per-tool, from `call_tool`) -/

/-- The `arguments` mapping of a tool call. -/
abbrev Args := List (String × JValue)

/-- Python `arguments.get(key, dflt)`. -/
def argGet (arguments : Args) (key : String) (dflt : JValue) : JValue :=
  (lookupField key arguments).getD dflt

/-- Python `arguments.get(key)` (default `None`). -/
def argGetOpt (arguments : Args) (key : String) : JValue :=
  argGet arguments key .null

/-- Argv built by the `twincat_build` branch. -/
def buildArgs_build (arguments : Args) : List JValue :=
  let solution_path := argGet arguments "solutionPath" (.str "")
  let clean := argGet arguments "clean" (.bool true)
  let tc_version := argGetOpt arguments "tcVersion"
  let args := [JValue.str "--solution", solution_path]
  let args := if clean.truthy then args ++ [JValue.str "--clean"] else args
  if tc_version.truthy then args ++ [JValue.str "--tcversion", tc_version] else args

/-- Argv built by the `twincat_get_info` branch. -/
def buildArgs_get_info (arguments : Args) : List JValue :=
  [JValue.str "--solution", argGet arguments "solutionPath" (.str "")]

/-- Argv built by the `twincat_clean` branch. -/
def buildArgs_clean (arguments : Args) : List JValue :=
  let solution_path := argGet arguments "solutionPath" (.str "")
  let tc_version := argGetOpt arguments "tcVersion"
  let args := [JValue.str "--solution", solution_path]
  if tc_version.truthy then args ++ [JValue.str "--tcversion", tc_version] else args

/-- Argv built by the `twincat_set_target` branch. -/
def buildArgs_set_target (arguments : Args) : List JValue :=
  let solution_path := argGet arguments "solutionPath" (.str "")
  let ams_net_id := argGet arguments "amsNetId" (.str "")
  let tc_version := argGetOpt arguments "tcVersion"
  let args := [JValue.str "--solution", solution_path, JValue.str "--amsnetid", ams_net_id]
  if tc_version.truthy then args ++ [JValue.str "--tcversion", tc_version] else args

/-- Argv built by the `twincat_activate` branch. -/
def buildArgs_activate (arguments : Args) : List JValue :=
  let solution_path := argGet arguments "solutionPath" (.str "")
  let ams_net_id := argGetOpt arguments "amsNetId"
  let tc_version := argGetOpt arguments "tcVersion"
  let args := [JValue.str "--solution", solution_path]
  let args := if ams_net_id.truthy then args ++ [JValue.str "--amsnetid", ams_net_id] else args
  if tc_version.truthy then args ++ [JValue.str "--tcversion", tc_version] else args

/-- Argv built by the `twincat_restart` branch (identical construction to
`twincat_activate`). -/
def buildArgs_restart (arguments : Args) : List JValue :=
  buildArgs_activate arguments

/-- Argv built by the `twincat_deploy` branch. -/
def buildArgs_deploy (arguments : Args) : List JValue :=
  let solution_path := argGet arguments "solutionPath" (.str "")
  let ams_net_id := argGet arguments "amsNetId" (.str "")
  let plc_name := argGetOpt arguments "plcName"
  let tc_version := argGetOpt arguments "tcVersion"
  let skip_build := argGet arguments "skipBuild" (.bool false)
  let dry_run := argGet arguments "dryRun" (.bool false)
  let args := [JValue.str "--solution", solution_path, JValue.str "--amsnetid", ams_net_id]
  let args := if plc_name.truthy then args ++ [JValue.str "--plc", plc_name] else args
  let args := if tc_version.truthy then args ++ [JValue.str "--tcversion", tc_version] else args
  let args := if skip_build.truthy then args ++ [JValue.str "--skip-build"] else args
  if dry_run.truthy then args ++ [JValue.str "--dry-run"] else args

/-- The (command, argv) pair each known tool name hands to
`run_tc_automation`; `none` for an unknown tool name. -/
def buildInvocation (name : String) (arguments : Args) : Option (String × List JValue) :=
  if name == "twincat_build" then some ("build", buildArgs_build arguments)
  else if name == "twincat_get_info" then some ("info", buildArgs_get_info arguments)
  else if name == "twincat_clean" then some ("clean", buildArgs_clean arguments)
  else if name == "twincat_set_target" then some ("set-target", buildArgs_set_target arguments)
  else if name == "twincat_activate" then some ("activate", buildArgs_activate arguments)
  else if name == "twincat_restart" then some ("restart", buildArgs_restart arguments)
  else if name == "twincat_deploy" then some ("deploy", buildArgs_deploy arguments)
  else none

/-! ## Dispatcher: per-tool rendering (from `call_tool`) -/

/-- One `  - file:line: description` line per issue, with the file-name
key differing between tools (`fileName` for build, `file` for deploy). -/
def issueLines (fileKey : String) : List JValue → Except String String
  | [] => .ok ""
  | w :: rest => do
      let fn ← dictGet w fileKey (.str "")
      let ln ← dictGet w "line" (.str "")
      let ds ← dictGet w "description" (.str "")
      let more ← issueLines fileKey rest
      .ok ("  - " ++ fn.pyStr ++ ":" ++ ln.pyStr ++ ": " ++ ds.pyStr ++ "\n" ++ more)

/-- Rendering of the `twincat_build` result. -/
def render_build (result : JValue) : Except String String := do
  let success ← dictGet result "success" .null
  if success.truthy then
    let summary ← dictGet result "summary" (.str "Build succeeded")
    let output := okMark ++ " " ++ summary.pyStr ++ "\n"
    let warnings ← dictGet result "warnings" .null
    if warnings.truthy then
      let ws ← iterElems warnings
      let lines ← issueLines "fileName" ws
      .ok (output ++ "\n" ++ warnMark ++ " Warnings:\n" ++ lines)
    else
      .ok output
  else
    let output := failMark ++ " Build failed\n"
    let em ← dictGet result "errorMessage" .null
    let output := if em.truthy then output ++ "\nError: " ++ em.pyStr ++ "\n" else output
    let errors ← dictGet result "errors" .null
    let output ← (if errors.truthy then do
        let es ← iterElems errors
        let lines ← issueLines "fileName" es
        (pure (output ++ "\n" ++ redMark ++ " Errors:\n" ++ lines) : Except String String)
      else pure output)
    let warnings ← dictGet result "warnings" .null
    if warnings.truthy then
      let ws ← iterElems warnings
      let lines ← issueLines "fileName" ws
      .ok (output ++ "\n" ++ warnMark ++ " Warnings:\n" ++ lines)
    else
      .ok output

/-- One `  - name (AMS Port: port)` line per PLC project. -/
def plcLines : List JValue → Except String String
  | [] => .ok ""
  | plc :: rest => do
      let nm ← dictGet plc "name" (.str "Unknown")
      let port ← dictGet plc "amsPort" (.str "Unknown")
      let more ← plcLines rest
      .ok ("  - " ++ nm.pyStr ++ " (AMS Port: " ++ port.pyStr ++ ")\n" ++ more)

/-- Rendering of the `twincat_get_info` result: the failure branch is
chosen on the truthiness of `errorMessage` alone. -/
def render_get_info (result : JValue) : Except String String := do
  let em ← dictGet result "errorMessage" .null
  if em.truthy then
    .ok (failMark ++ " Error: " ++ em.pyStr)
  else
    let sp ← dictGet result "solutionPath" (.str "Unknown")
    let tv ← dictGet result "tcVersion" (.str "Unknown")
    let pinned ← dictGet result "tcVersionPinned" .null
    let vs ← dictGet result "visualStudioVersion" (.str "Unknown")
    let tp ← dictGet result "targetPlatform" (.str "Unknown")
    let header := clipMark ++ " TwinCAT Project Info\nSolution: " ++ sp.pyStr ++
      "\nTwinCAT Version: " ++ tv.pyStr ++ " " ++ (if pinned.truthy then "(pinned)" else "") ++
      "\nVisual Studio Version: " ++ vs.pyStr ++
      "\nTarget Platform: " ++ tp.pyStr ++ "\n\nPLC Projects:\n"
    let plcsV ← dictGet result "plcProjects" (.arr [])
    if plcsV.truthy then
      let plcs ← iterElems plcsV
      let lines ← plcLines plcs
      .ok (header ++ lines)
    else
      .ok (header ++ "  (none found)\n")

/-- Rendering of the `twincat_clean` result. -/
def render_clean (result : JValue) : Except String String := do
  let success ← dictGet result "success" .null
  if success.truthy then
    let msg ← dictGet result "message" (.str "Solution cleaned successfully")
    .ok (okMark ++ " " ++ msg.pyStr)
  else
    let err ← dictGet result "error" (.str "Unknown error")
    .ok (failMark ++ " Clean failed: " ++ err.pyStr)

/-- Rendering of the `twincat_set_target` result (`ams_net_id` is the
request argument, used as the default for `newTarget`). -/
def render_set_target (ams_net_id : JValue) (result : JValue) : Except String String := do
  let success ← dictGet result "success" .null
  if success.truthy then
    let msg ← dictGet result "message" (.str "Target set successfully")
    let prev ← dictGet result "previousTarget" (.str "Unknown")
    let newT ← dictGet result "newTarget" ams_net_id
    .ok (okMark ++ " " ++ msg.pyStr ++ "\n" ++
         "Previous target: " ++ prev.pyStr ++ "\n" ++
         "New target: " ++ newT.pyStr)
  else
    let err ← dictGet result "error" (.str "Unknown error")
    .ok (failMark ++ " Set target failed: " ++ err.pyStr)

/-- Rendering of the `twincat_activate` result. -/
def render_activate (result : JValue) : Except String String := do
  let success ← dictGet result "success" .null
  if success.truthy then
    let msg ← dictGet result "message" (.str "Configuration activated")
    let tgt ← dictGet result "targetNetId" (.str "Unknown")
    .ok (okMark ++ " " ++ msg.pyStr ++ "\n" ++ "Target: " ++ tgt.pyStr)
  else
    let err ← dictGet result "error" (.str "Unknown error")
    .ok (failMark ++ " Activation failed: " ++ err.pyStr)

/-- Rendering of the `twincat_restart` result. -/
def render_restart (result : JValue) : Except String String := do
  let success ← dictGet result "success" .null
  if success.truthy then
    let msg ← dictGet result "message" (.str "TwinCAT restarted")
    let tgt ← dictGet result "targetNetId" (.str "Unknown")
    .ok (okMark ++ " " ++ msg.pyStr ++ "\n" ++ "Target: " ++ tgt.pyStr)
  else
    let err ← dictGet result "error" (.str "Unknown error")
    .ok (failMark ++ " Restart failed: " ++ err.pyStr)

/-- One deploy step line: `  n. action( (dry run))?`, annotated from the
step object's own `dryRun` field. -/
def stepLines : List JValue → Except String String
  | [] => .ok ""
  | step :: rest => do
      let n ← dictGet step "step" (.str "?")
      let act ← dictGet step "action" (.str "Unknown")
      let d ← dictGet step "dryRun" .null
      let dry_note := if d.truthy then " (dry run)" else ""
      let more ← stepLines rest
      .ok ("  " ++ n.pyStr ++ ". " ++ act.pyStr ++ dry_note ++ "\n" ++ more)

/-- Rendering of the `twincat_deploy` result (`ams_net_id` and `dry_run`
are the request arguments). -/
def render_deploy (ams_net_id : JValue) (dry_run : JValue) (result : JValue) :
    Except String String := do
  let success ← dictGet result "success" .null
  if success.truthy then
    let msg ← dictGet result "message" (.str "Deployment successful")
    let tgt ← dictGet result "targetNetId" ams_net_id
    let plcsV ← dictGet result "deployedPlcs" (.arr [])
    let plcsJoined ← pyJoin ", " plcsV
    let output := (if dry_run.truthy then lensMark ++ " DRY RUN: " else "") ++
      okMark ++ " " ++ msg.pyStr ++ "\n\n" ++
      "Target: " ++ tgt.pyStr ++ "\n" ++
      "Deployed PLCs: " ++ plcsJoined ++ "\n\n"
    let steps ← dictGet result "steps" .null
    if steps.truthy then
      let ss ← iterElems steps
      let lines ← stepLines ss
      .ok (output ++ clipMark ++ " Deployment Steps:\n" ++ lines)
    else
      .ok output
  else
    let err ← dictGet result "error" (.str "Unknown error")
    let output := failMark ++ " Deployment failed: " ++ err.pyStr ++ "\n"
    let errors ← dictGet result "errors" .null
    if errors.truthy then
      let es ← iterElems errors
      let lines ← issueLines "file" es
      .ok (output ++ "\n" ++ redMark ++ " Build Errors:\n" ++ lines)
    else
      .ok output

/-- `call_tool`: the whole dispatcher. The bridge is passed explicitly so
that theorems can observe whether and how it is invoked; in the program it
is `run_tc_automation` applied to the live filesystem and parser. -/
def call_tool (bridge : String → List JValue → Except String JValue)
    (name : String) (arguments : Args) : Except String String :=
  if name == "twincat_build" then do
    let result ← bridge "build" (buildArgs_build arguments)
    render_build result
  else if name == "twincat_get_info" then do
    let result ← bridge "info" (buildArgs_get_info arguments)
    render_get_info result
  else if name == "twincat_clean" then do
    let result ← bridge "clean" (buildArgs_clean arguments)
    render_clean result
  else if name == "twincat_set_target" then do
    let result ← bridge "set-target" (buildArgs_set_target arguments)
    render_set_target (argGet arguments "amsNetId" (.str "")) result
  else if name == "twincat_activate" then do
    let result ← bridge "activate" (buildArgs_activate arguments)
    render_activate result
  else if name == "twincat_restart" then do
    let result ← bridge "restart" (buildArgs_restart arguments)
    render_restart result
  else if name == "twincat_deploy" then do
    let result ← bridge "deploy" (buildArgs_deploy arguments)
    render_deploy (argGet arguments "amsNetId" (.str ""))
      (argGet arguments "dryRun" (.bool false)) result
  else
    .ok ("Unknown tool: " ++ name)

/-! ## Auxiliary predicates for the theorems -/

/-- `listedInOrder msg ps`: every string of `ps` occurs in `msg`, in the
order given, each occurrence after the previous one. -/
def listedInOrder : String → List String → Prop
  | _, [] => True
  | msg, p :: ps => ∃ pre rest, msg = pre ++ p ++ rest ∧ listedInOrder rest ps

/-- Boolean test: `needle` starts the character list. -/
def chStarts : List Char → List Char → Bool
  | [], _ => true
  | _ :: _, [] => false
  | a :: as, b :: bs => a == b && chStarts as bs

/-- Boolean test: `needle` occurs contiguously in the character list. -/
def chHasSub (needle : List Char) : List Char → Bool
  | [] => needle.isEmpty
  | b :: bs => chStarts needle (b :: bs) || chHasSub needle bs

/-- Boolean substring test on strings. -/
def strHasSub (needle hay : String) : Bool := chHasSub needle.toList hay.toList

/-- The process outcomes the bridge's `try` block turns into failure
envelopes: timeout, a spawn-time exception, non-JSON stdout, or empty
stdout. -/
def isFailureOutcome (parse : String → Option JValue) : ProcOutcome → Prop
  | .timedOut _ _ => True
  | .spawnError _ => True
  | .completed out _ => pyStrip out = "" ∨ parse out = none

/-- `findFirst` is `List.find?`. -/
theorem findFirst_eq (fs : String → Bool) (l : List String) :
    findFirst fs l = l.find? fs := by
  induction l with
  | nil => rfl
  | cons p rest ih =>
      simp only [findFirst, List.find?]
      cases h : fs p <;> simp [h, ih]

/-- Prepending text preserves an in-order listing. -/
theorem listedInOrder_append_left (x : String) :
    ∀ (msg : String) (ps : List String), listedInOrder msg ps → listedInOrder (x ++ msg) ps := by
  intro msg ps h
  cases ps with
  | nil => trivial
  | cons p rest =>
      obtain ⟨pre, tl, hmsg, htl⟩ := h
      exact ⟨x ++ pre, tl, by simp [hmsg, String.append_assoc], htl⟩

/-- Appending text preserves an in-order listing. -/
theorem listedInOrder_append_right (y : String) :
    ∀ (ps : List String) (msg : String), listedInOrder msg ps → listedInOrder (msg ++ y) ps := by
  intro ps
  induction ps with
  | nil => intro msg _; trivial
  | cons p rest ih =>
      intro msg h
      obtain ⟨pre, tl, hmsg, htl⟩ := h
      exact ⟨pre, tl ++ y, by rw [hmsg, String.append_assoc, String.append_assoc], ih tl htl⟩

/-- The `"  - "`-bulleted join lists every path, in order. -/
theorem listedInOrder_searchedPaths :
    ∀ paths : List String, listedInOrder (searchedPathsListing paths) paths := by
  intro paths
  induction paths with
  | nil => trivial
  | cons p rest ih =>
      cases rest with
      | nil => exact ⟨"  - ", "", by rw [String.append_empty]; rfl, trivial⟩
      | cons q rest2 =>
          refine ⟨"  - ", "\n" ++ searchedPathsListing (q :: rest2), ?_, ?_⟩
          · show ("  - " ++ p) ++ "\n" ++ pyJoinStrs "\n" ((q :: rest2).map (fun r => "  - " ++ r)) = _
            rw [String.append_assoc, String.append_assoc]
            rfl
          · exact listedInOrder_append_left "\n" _ _ ih

/-- The `FileNotFoundError` message lists every candidate path, in order. -/
theorem listedInOrder_notFound (paths : List String) :
    listedInOrder (notFoundMessage paths) paths := by
  have h1 := listedInOrder_append_left "TcAutomation.exe not found. Searched paths:\n" _ _
    (listedInOrder_append_right
      ("\n\nPlease build the TcAutomation project first:\n" ++ "  .\\scripts\\build.ps1")
      paths (searchedPathsListing paths) (listedInOrder_searchedPaths paths))
  have : notFoundMessage paths =
      "TcAutomation.exe not found. Searched paths:\n" ++
        (searchedPathsListing paths ++
          ("\n\nPlease build the TcAutomation project first:\n" ++ "  .\\scripts\\build.ps1")) := by
    show _ ++ _ ++ _ ++ _ = _
    rw [String.append_assoc, String.append_assoc]
  rw [this]
  exact h1

/-- C6: `find_tc_automation_exe` returns the first existing candidate of
the fixed four-element list, probing in declared priority order, and when
none exists the `FileNotFoundError` it raises enumerates all four
candidate paths in that exact order. -/
theorem find_tc_automation_exe_first_or_lists_all (fs : String → Bool) (base : String) :
    (∀ p, find_tc_automation_exe fs (TC_AUTOMATION_PATHS base) = .ok p ↔
        (TC_AUTOMATION_PATHS base).find? fs = some p)
    ∧ ((∀ p ∈ TC_AUTOMATION_PATHS base, fs p = false) →
        find_tc_automation_exe fs (TC_AUTOMATION_PATHS base) =
          .error (notFoundMessage (TC_AUTOMATION_PATHS base)) ∧
        listedInOrder (notFoundMessage (TC_AUTOMATION_PATHS base)) (TC_AUTOMATION_PATHS base)) := by
  constructor
  · intro p
    rw [find_tc_automation_exe, findFirst_eq]
    cases h : (TC_AUTOMATION_PATHS base).find? fs <;> simp [h]
  · intro hnone
    have hfind : findFirst fs (TC_AUTOMATION_PATHS base) = none := by
      rw [findFirst_eq]
      simp only [List.find?_eq_none]
      intro p hp
      simp [hnone p hp]
    refine ⟨?_, listedInOrder_notFound _⟩
    rw [find_tc_automation_exe, hfind]

/-- Witness for C6 at a filesystem with no existing path. -/
theorem find_tc_automation_exe_first_or_lists_all_witness :
    find_tc_automation_exe (fun _ => false) (TC_AUTOMATION_PATHS "C:") =
      .error (notFoundMessage (TC_AUTOMATION_PATHS "C:")) ∧
    listedInOrder (notFoundMessage (TC_AUTOMATION_PATHS "C:")) (TC_AUTOMATION_PATHS "C:") :=
  (find_tc_automation_exe_first_or_lists_all (fun _ => false) "C:").2 (fun _ _ => rfl)

/-- C4: on normal completion, non-empty non-JSON stdout yields a
`success:false` envelope whose message is `Invalid JSON output: ` followed
by the raw stdout with stderr attached separately; empty trimmed stdout
yields `success:false` with stderr as the message, or
`No output from TcAutomation.exe` when stderr is empty too. -/
theorem run_tc_automation_output_normalization (parse : String → Option JValue)
    (fs : String → Bool) (paths : List String) (p out err : String)
    (hfound : find_tc_automation_exe fs paths = .ok p) :
    (pyStrip out ≠ "" → parse out = none →
      run_tc_automation parse fs paths (.completed out err) =
        .ok (.obj [("success", .bool false),
                   ("errorMessage", .str ("Invalid JSON output: " ++ out)),
                   ("stderr", .str err)]))
    ∧ (pyStrip out = "" →
      run_tc_automation parse fs paths (.completed out err) =
        .ok (.obj [("success", .bool false),
                   ("errorMessage",
                    .str (if err = "" then "No output from TcAutomation.exe" else err))])) := by
  constructor
  · intro h hp
    simp [run_tc_automation, hfound, h, hp]
  · intro h
    by_cases he : err = "" <;> simp [run_tc_automation, hfound, h, he]

/-- Witness for C4: stdout `not-json`, stderr preserved separately. -/
theorem run_tc_automation_output_normalization_witness :
    run_tc_automation (fun _ => none) (fun _ => true) (TC_AUTOMATION_PATHS "C:")
      (.completed "not-json" "boom") =
      .ok (.obj [("success", .bool false),
                 ("errorMessage", .str ("Invalid JSON output: " ++ "not-json")),
                 ("stderr", .str "boom")]) :=
  (run_tc_automation_output_normalization (fun _ => none) (fun _ => true)
    (TC_AUTOMATION_PATHS "C:") ("C:" ++ "/TcAutomation/bin/Release/TcAutomation.exe")
    "not-json" "boom" rfl).1 (by decide) rfl

/-- C5: a subprocess timeout yields a `success:false` envelope whose
message is exactly `Command timed out after 5 minutes`; the result is a
constant independent of the parser and of any partial output, so no parse
of partial output is attempted. -/
theorem run_tc_automation_timeout (parse : String → Option JValue) (fs : String → Bool)
    (paths : List String) (p pout perr : String)
    (hfound : find_tc_automation_exe fs paths = .ok p) :
    run_tc_automation parse fs paths (.timedOut pout perr) =
      .ok (.obj [("success", .bool false),
                 ("errorMessage", .str "Command timed out after 5 minutes")]) := by
  simp [run_tc_automation, hfound]

/-- Witness for C5 with partial output present and a parser that would
accept it: the envelope ignores both. -/
theorem run_tc_automation_timeout_witness :
    run_tc_automation (fun _ => some (.obj [("success", .bool true)])) (fun _ => true)
      (TC_AUTOMATION_PATHS "C:") (.timedOut "partial" "perr") =
      .ok (.obj [("success", .bool false),
                 ("errorMessage", .str "Command timed out after 5 minutes")]) :=
  run_tc_automation_timeout (fun _ => some (.obj [("success", .bool true)])) (fun _ => true)
    (TC_AUTOMATION_PATHS "C:") ("C:" ++ "/TcAutomation/bin/Release/TcAutomation.exe")
    "partial" "perr" rfl

/-- C1 counterexample: with no candidate path existing on the filesystem,
`run_tc_automation` propagates the locator's `FileNotFoundError` outward
(the locator call sits before the `try` block) instead of returning a
`success:false` envelope. -/
theorem run_tc_automation_raises_when_exe_missing :
    run_tc_automation (fun _ => none) (fun _ => false) (TC_AUTOMATION_PATHS "C:")
      (.completed "" "") =
      .error (notFoundMessage (TC_AUTOMATION_PATHS "C:")) := rfl

/-- C1 amended: once the executable path resolves, every failure mode of
the subprocess step — timeout, spawn exception, non-JSON stdout, empty
stdout — is returned as a `success:false` envelope carrying an error
message, never an exception. -/
theorem run_tc_automation_no_throw_after_resolve (parse : String → Option JValue)
    (fs : String → Bool) (paths : List String) (p : String) (proc : ProcOutcome)
    (hfound : find_tc_automation_exe fs paths = .ok p)
    (hfail : isFailureOutcome parse proc) :
    ∃ fields, run_tc_automation parse fs paths proc = .ok (.obj fields) ∧
      lookupField "success" fields = some (.bool false) ∧
      ∃ m, lookupField "errorMessage" fields = some (.str m) := by
  cases proc with
  | timedOut pout perr =>
      refine ⟨[("success", .bool false),
               ("errorMessage", .str "Command timed out after 5 minutes")],
        ?_, rfl, ⟨_, rfl⟩⟩
      simp [run_tc_automation, hfound]
  | spawnError msg =>
      refine ⟨[("success", .bool false), ("errorMessage", .str msg)], ?_, rfl, ⟨_, rfl⟩⟩
      simp [run_tc_automation, hfound]
  | completed out err =>
      by_cases ht : pyStrip out = ""
      · refine ⟨[("success", .bool false),
                 ("errorMessage", .str (if err != "" then err else "No output from TcAutomation.exe"))],
          ?_, rfl, ⟨_, rfl⟩⟩
        simp [run_tc_automation, hfound, ht]
      · have hp : parse out = none := by
          rcases hfail with h | h
          · exact absurd h ht
          · exact h
        refine ⟨[("success", .bool false),
                 ("errorMessage", .str ("Invalid JSON output: " ++ out)),
                 ("stderr", .str err)], ?_, rfl, ⟨_, rfl⟩⟩
        simp [run_tc_automation, hfound, ht, hp]

/-- Witness for C1 amended at a timeout outcome. -/
theorem run_tc_automation_no_throw_after_resolve_witness :
    ∃ fields, run_tc_automation (fun _ => none) (fun _ => true) (TC_AUTOMATION_PATHS "C:")
        (.timedOut "" "") = .ok (.obj fields) ∧
      lookupField "success" fields = some (.bool false) ∧
      ∃ m, lookupField "errorMessage" fields = some (.str m) :=
  run_tc_automation_no_throw_after_resolve (fun _ => none) (fun _ => true)
    (TC_AUTOMATION_PATHS "C:") ("C:" ++ "/TcAutomation/bin/Release/TcAutomation.exe")
    (.timedOut "" "") rfl trivial

/-- Reduction of `Except` bind on a success value. -/
theorem bind_ok {α β : Type} (a : α) (f : α → Except String β) :
    (Except.ok a >>= f) = f a := rfl

/-- Reduction of `Except` bind on an error value. -/
theorem bind_error {α β : Type} (e : String) (f : α → Except String β) :
    ((Except.error e : Except String α) >>= f) = Except.error e := rfl

/-- C2 counterexample: calling `twincat_build` with an empty argument
mapping — `solutionPath`, the required property, absent — still reaches
the bridge: the output is the rendering of the stub bridge's envelope,
contains no `ValidationError`, and the argv handed to the bridge carries
the defaulted empty solution path. -/
theorem call_tool_no_validation_counterexample :
    call_tool (fun _ _ => .ok (.obj [("success", .bool true), ("summary", .str "stub-build-ok")]))
        "twincat_build" [] =
      .ok (okMark ++ " stub-build-ok\n")
    ∧ strHasSub "ValidationError" (okMark ++ " stub-build-ok\n") = false
    ∧ buildArgs_build [] = [JValue.str "--solution", JValue.str "", JValue.str "--clean"] :=
  ⟨rfl, by decide, rfl⟩

/-- C2 amended: the dispatcher performs no required-property validation.
For every argument mapping, including ones missing required properties,
the `twincat_build` and `twincat_set_target` branches invoke the bridge
and return the rendering of whatever it produces; a missing required
string property is defaulted to the empty string in the argv. -/
theorem call_tool_always_invokes_bridge (bridge : String → List JValue → Except String JValue)
    (arguments : Args) :
    (call_tool bridge "twincat_build" arguments =
      match bridge "build" (buildArgs_build arguments) with
      | .ok env => render_build env
      | .error e => .error e)
    ∧ (lookupField "solutionPath" arguments = none →
        (buildArgs_build arguments).take 2 = [JValue.str "--solution", JValue.str ""])
    ∧ (call_tool bridge "twincat_set_target" arguments =
      match bridge "set-target" (buildArgs_set_target arguments) with
      | .ok env => render_set_target (argGet arguments "amsNetId" (.str "")) env
      | .error e => .error e)
    ∧ (lookupField "amsNetId" arguments = none →
        (buildArgs_set_target arguments).take 4 =
          [JValue.str "--solution", argGet arguments "solutionPath" (.str ""),
           JValue.str "--amsnetid", JValue.str ""]) := by
  refine ⟨?_, ?_, ?_, ?_⟩
  · cases h : bridge "build" (buildArgs_build arguments) <;>
      simp [call_tool, h, bind_ok, bind_error]
  · intro h
    simp only [buildArgs_build, argGet, argGetOpt, h, Option.getD]
    split <;> split <;> rfl
  · cases h : bridge "set-target" (buildArgs_set_target arguments) <;>
      simp [call_tool, h, bind_ok, bind_error]
  · intro h
    simp only [buildArgs_set_target, argGet, argGetOpt, h, Option.getD]
    split <;> rfl

/-- Witness for C2 amended: empty arguments still produce a full argv. -/
theorem call_tool_always_invokes_bridge_witness :
    (buildArgs_build []).take 2 = [JValue.str "--solution", JValue.str ""] :=
  (call_tool_always_invokes_bridge (fun _ _ => .ok .null) []).2.1 rfl

/-- C3 counterexample: a `twincat_deploy` call with `dryRun: true` whose
`success:true` envelope contains a step lacking its own `dryRun` field
renders that step without any dry-run annotation — the rendered text
contains no `(dry run)` at all. -/
theorem deploy_dry_run_step_not_annotated :
    call_tool (fun _ _ => .ok (.obj [("success", .bool true),
        ("steps", .arr [.obj [("step", .num 1), ("action", .str "Build")]])]))
      "twincat_deploy"
      [("solutionPath", .str "C:\\P\\S.sln"), ("amsNetId", .str "5.22.157.86.1.1"),
       ("dryRun", .bool true)] =
      .ok (lensMark ++ " DRY RUN: " ++ okMark ++
        " Deployment successful\n\nTarget: 5.22.157.86.1.1\nDeployed PLCs: \n\n" ++
        clipMark ++ " Deployment Steps:\n  1. Build\n")
    ∧ strHasSub "(dry run)"
        (lensMark ++ " DRY RUN: " ++ okMark ++
          " Deployment successful\n\nTarget: 5.22.157.86.1.1\nDeployed PLCs: \n\n" ++
          clipMark ++ " Deployment Steps:\n  1. Build\n") = false :=
  ⟨rfl, by decide⟩

/-- C3 amended: a truthy `dryRun` argument appends the bare `--dry-run`
flag to the argv (passed through unmodified), while a rendered step line
is annotated ` (dry run)` iff the step object itself carries a truthy
`dryRun` field — the request's `dryRun` is not consulted per step. -/
theorem deploy_dry_run_passthrough_per_step :
    (∀ arguments : Args, (argGet arguments "dryRun" (.bool false)).truthy = true →
      JValue.str "--dry-run" ∈ buildArgs_deploy arguments)
    ∧ (∀ fields : List (String × JValue),
        stepLines [.obj fields] =
          .ok ("  " ++ ((lookupField "step" fields).getD (.str "?")).pyStr ++ ". " ++
               ((lookupField "action" fields).getD (.str "Unknown")).pyStr ++
               (if ((lookupField "dryRun" fields).getD .null).truthy then " (dry run)" else "") ++
               "\n")) := by
  constructor
  · intro arguments h
    simp [buildArgs_deploy, h]
  · intro fields
    have h : stepLines [JValue.obj fields] =
        .ok ("  " ++ ((lookupField "step" fields).getD (.str "?")).pyStr ++ ". " ++
             ((lookupField "action" fields).getD (.str "Unknown")).pyStr ++
             (if ((lookupField "dryRun" fields).getD .null).truthy then " (dry run)" else "") ++
             "\n" ++ "") := rfl
    rw [h, String.append_empty]

/-- Witness for C3 amended: `--dry-run` lands in the argv. -/
theorem deploy_dry_run_passthrough_per_step_witness :
    JValue.str "--dry-run" ∈ buildArgs_deploy [("dryRun", JValue.bool true)] :=
  deploy_dry_run_passthrough_per_step.1 [("dryRun", JValue.bool true)] rfl

/-- C7: the per-tool argument builders follow the uniform rules —
`--solution <path>` first, optional scalars as `--<flag> <value>` pairs
only when truthy, booleans as bare flags only when truthy, in fixed
per-tool order — and the two concrete scenarios evaluate as specified. -/
theorem argument_builder_rules :
    buildArgs_build [("solutionPath", JValue.str "C:\\P\\S.sln"), ("clean", JValue.bool true)] =
      [JValue.str "--solution", JValue.str "C:\\P\\S.sln", JValue.str "--clean"]
    ∧ buildArgs_set_target [("solutionPath", JValue.str "C:\\P\\S.sln"),
        ("amsNetId", JValue.str "5.22.157.86.1.1"), ("tcVersion", JValue.str "3.1.4026.17")] =
      [JValue.str "--solution", JValue.str "C:\\P\\S.sln",
       JValue.str "--amsnetid", JValue.str "5.22.157.86.1.1",
       JValue.str "--tcversion", JValue.str "3.1.4026.17"]
    ∧ (∀ arguments : Args, buildArgs_build arguments =
        [JValue.str "--solution", argGet arguments "solutionPath" (.str "")] ++
        (if (argGet arguments "clean" (.bool true)).truthy then [JValue.str "--clean"] else []) ++
        (if (argGetOpt arguments "tcVersion").truthy
          then [JValue.str "--tcversion", argGetOpt arguments "tcVersion"] else []))
    ∧ (∀ arguments : Args, buildArgs_set_target arguments =
        [JValue.str "--solution", argGet arguments "solutionPath" (.str ""),
         JValue.str "--amsnetid", argGet arguments "amsNetId" (.str "")] ++
        (if (argGetOpt arguments "tcVersion").truthy
          then [JValue.str "--tcversion", argGetOpt arguments "tcVersion"] else [])) := by
  refine ⟨rfl, rfl, ?_, ?_⟩
  · intro arguments
    cases hc : (argGet arguments "clean" (.bool true)).truthy <;>
      cases ht : (argGetOpt arguments "tcVersion").truthy <;>
        simp [buildArgs_build, hc, ht]
  · intro arguments
    cases ht : (argGetOpt arguments "tcVersion").truthy <;>
      simp [buildArgs_set_target, ht]

/-- C8: argument-vector construction is deterministic — identical
arguments yield an identical token sequence, and with a fixed bridge the
whole dispatch is reproducible. -/
theorem buildInvocation_deterministic (name : String) (args1 args2 : Args)
    (h : args1 = args2) :
    buildInvocation name args1 = buildInvocation name args2 ∧
    ∀ bridge : String → List JValue → Except String JValue,
      call_tool bridge name args1 = call_tool bridge name args2 := by
  subst h
  exact ⟨rfl, fun _ => rfl⟩

/-- Witness for C8 at a concrete tool call. -/
theorem buildInvocation_deterministic_witness :
    buildInvocation "twincat_build" [("solutionPath", JValue.str "C:\\P\\S.sln")] =
      buildInvocation "twincat_build" [("solutionPath", JValue.str "C:\\P\\S.sln")] :=
  (buildInvocation_deterministic "twincat_build"
    [("solutionPath", JValue.str "C:\\P\\S.sln")]
    [("solutionPath", JValue.str "C:\\P\\S.sln")] rfl).1

/-- C9: subprocess stdout that parses as a JSON array is returned by
`run_tc_automation` unchanged (despite its declared dict result type),
and the dispatcher's subsequent `.get` on it raises an `AttributeError`
that no code in the adapter catches — `call_tool` itself propagates the
fault outward. -/
theorem call_tool_nondict_output_uncaught_fault :
    run_tc_automation (fun s => if s == "[1]" then some (.arr [.num 1]) else none)
        (fun _ => true) (TC_AUTOMATION_PATHS "C:") (.completed "[1]" "") =
      .ok (.arr [.num 1])
    ∧ call_tool (fun _ _ =>
        run_tc_automation (fun s => if s == "[1]" then some (.arr [.num 1]) else none)
          (fun _ => true) (TC_AUTOMATION_PATHS "C:") (.completed "[1]" ""))
        "twincat_build" [("solutionPath", .str "C:\\P\\S.sln")] =
      .error ("AttributeError: list object has no attribute get") :=
  ⟨rfl, rfl⟩

/-- C10: the `twincat_get_info` failure branch is selected iff the
envelope's `errorMessage` is truthy, independently of `success`: the
rendering never reads `success` at all, an envelope with `success:false`
and no `errorMessage` renders the info view with `Unknown` placeholders,
and one with `success:true` and a non-empty `errorMessage` renders as an
error. -/
theorem get_info_error_branch_on_errorMessage_only :
    (∀ fields : List (String × JValue),
      ((lookupField "errorMessage" fields).getD .null).truthy = true →
        render_get_info (.obj fields) =
          .ok (failMark ++ " Error: " ++ ((lookupField "errorMessage" fields).getD .null).pyStr))
    ∧ (∀ (fields : List (String × JValue)) (v1 v2 : JValue),
        render_get_info (.obj (("success", v1) :: fields)) =
          render_get_info (.obj (("success", v2) :: fields)))
    ∧ render_get_info (.obj [("success", .bool false)]) =
        .ok (clipMark ++ " TwinCAT Project Info\nSolution: Unknown\nTwinCAT Version: Unknown \nVisual Studio Version: Unknown\nTarget Platform: Unknown\n\nPLC Projects:\n  (none found)\n")
    ∧ render_get_info (.obj [("success", .bool true), ("errorMessage", .str "boom")]) =
        .ok (failMark ++ " Error: boom") := by
  refine ⟨?_, ?_, rfl, rfl⟩
  · intro fields h
    simp [render_get_info, dictGet, bind_ok, h]
  · intro fields v1 v2
    rfl

/-- Witness for C10 at an envelope with only a truthy `errorMessage`. -/
theorem get_info_error_branch_on_errorMessage_only_witness :
    render_get_info (.obj [("errorMessage", JValue.str "x")]) =
      .ok (failMark ++ " Error: x") :=
  get_info_error_branch_on_errorMessage_only.1 [("errorMessage", JValue.str "x")] rfl

end TwincatMCP
